import Mathlib

/-!
Verification of the referral-claim, reward-ledger and webhook-delivery core
of the ReferralMicroservice repository, as a shallow embedding in Lean 4.

Database tables become lists of row structures, the request handlers become
state-passing functions, and machine-level concerns (HTTP transport, JSON
parsing before zod validation, clock reads) become explicit parameters.
JSON configuration values are modelled by the inductive `JVal`, whose
constructors track exactly the distinctions the TypeScript code makes with
`typeof` checks.  TypeScript numbers are modelled as `Int` (every claim under
study concerns integral amounts and sign tests only).
-/

/-- JSON-ish value as far as the code can observe it: the source only ever
distinguishes numbers, strings, and everything else via `typeof`. -/
inductive JVal where
  | num (n : Int)
  | str (s : String)
  | other
deriving DecidableEq, Repr

/-- Fields of a tenant's `referral_settings_json` object that the core reads.
Absent object keys are `none`. -/
structure RawSettings where
  onboarding_bonus : Option JVal
  referral_reward_free : Option JVal
  referral_reward_pro : Option JVal
  referral_reward_power_pro : Option JVal
  currency : Option JVal
  max_referrals_per_referrer : Option JVal
deriving DecidableEq, Repr

/-- ASCII lower-casing of one character (the tier strings the system compares
against are ASCII, so this captures toLowerCase on every relevant input). -/
def asciiLower (c : Char) : Char :=
  if 'A' ≤ c ∧ c ≤ 'Z' then Char.ofNat (c.toNat + 32) else c

/-- Lower-case a string character-wise. -/
def lowerString (s : String) : String :=
  String.mk (s.data.map asciiLower)

/-- Is this character trimmed by a trim() call? -/
def isSpaceChar (c : Char) : Bool :=
  c == ' ' || c == '\t' || c == '\n' || c == '\r'

/-- Drop leading whitespace from a character list. -/
def trimLeftChars : List Char → List Char
  | [] => []
  | c :: rest => if isSpaceChar c then trimLeftChars rest else c :: rest

/-- Trim whitespace from both ends of a string. -/
def trimString (s : String) : String :=
  String.mk (trimLeftChars ((trimLeftChars s.data.reverse).reverse))

/-- First `n` characters of a string (slice(0, n)). -/
def strTake (s : String) (n : Nat) : String :=
  String.mk (s.data.take n)

/-- Normalized reward configuration, mirroring `RewardRulesConfig` in
src/db/schema.ts (normalize module). -/
structure RewardRulesConfig where
  onboarding_bonus : Int
  referral_reward_free : Int
  referral_reward_pro : Int
  referral_reward_power_pro : Int
  currency : String
deriving DecidableEq, Repr

/-- Built-in defaults `DEFAULT_REWARD_RULES` from the source. -/
def DEFAULT_REWARD_RULES : RewardRulesConfig :=
  { onboarding_bonus := 0
    referral_reward_free := 100
    referral_reward_pro := 200
    referral_reward_power_pro := 300
    currency := "AUD" }

/-- Embedding of `normalizeRewardRules`: each field keeps a configured value
only when its `typeof` matches (number for amounts; non-blank string for the
currency), otherwise the documented default applies. -/
def normalizeRewardRules (rawRules : Option RawSettings) : RewardRulesConfig :=
  match rawRules with
  | none => DEFAULT_REWARD_RULES
  | some r =>
    { onboarding_bonus :=
        match r.onboarding_bonus with
        | some (JVal.num n) => n
        | _ => DEFAULT_REWARD_RULES.onboarding_bonus
      referral_reward_free :=
        match r.referral_reward_free with
        | some (JVal.num n) => n
        | _ => DEFAULT_REWARD_RULES.referral_reward_free
      referral_reward_pro :=
        match r.referral_reward_pro with
        | some (JVal.num n) => n
        | _ => DEFAULT_REWARD_RULES.referral_reward_pro
      referral_reward_power_pro :=
        match r.referral_reward_power_pro with
        | some (JVal.num n) => n
        | _ => DEFAULT_REWARD_RULES.referral_reward_power_pro
      currency :=
        match r.currency with
        | some (JVal.str s) => if trimString s ≠ "" then s else DEFAULT_REWARD_RULES.currency
        | _ => DEFAULT_REWARD_RULES.currency }

/-- Subscription tiers recognised by the reward engine. -/
inductive SubscriptionTier where
  | free
  | pro
  | power_pro
deriving DecidableEq, Repr

/-- Branching step of tier normalization on the lowercased, trimmed string. -/
def normalizedTierOf (n : String) : SubscriptionTier :=
  if n = "pro" then SubscriptionTier.pro
  else if n = "power_pro" ∨ n = "powerpro" then SubscriptionTier.power_pro
  else SubscriptionTier.free

/-- Embedding of `normalizeSubscriptionTier`; a missing or empty (falsy)
tier string is treated as the free tier. -/
def normalizeSubscriptionTier (tier : Option String) : SubscriptionTier :=
  match tier with
  | none => SubscriptionTier.free
  | some s => if s = "" then SubscriptionTier.free else normalizedTierOf (trimString (lowerString s))

/-- Embedding of `getRewardAmountForTier`. -/
def getRewardAmountForTier (rules : RewardRulesConfig) (tier : SubscriptionTier) : Int :=
  match tier with
  | SubscriptionTier.free => rules.referral_reward_free
  | SubscriptionTier.pro => rules.referral_reward_pro
  | SubscriptionTier.power_pro => rules.referral_reward_power_pro

/-- Reward payload stored on a ledger row (`rewardJson` in the source). -/
structure RewardJson where
  kind : String
  amount : Int
  currency : String
  description : String
  referralId : Option String
  referrerTier : Option String
  referredExternalUserId : Option String
  referrerExternalUserId : Option String
deriving DecidableEq, Repr

/-- One reward grant produced by the evaluator (`RewardEntry` in the source). -/
structure RewardEntry where
  userId : String
  eventId : String
  source : String
  rewardJson : RewardJson
deriving DecidableEq, Repr

/-- Input record of `calculateRewards`. -/
structure CalculateRewardsInput where
  referralId : String
  referrerUserId : String
  referrerExternalUserId : String
  referrerTier : String
  referredUserId : String
  referredExternalUserId : String
  tenantRewardSettings : Option RawSettings
deriving DecidableEq, Repr

/-- Output record of `calculateRewards`. -/
structure CalculateRewardsOutput where
  referrerReward : Option RewardEntry
  referredReward : Option RewardEntry
deriving DecidableEq, Repr

/-- Embedding of `calculateReferrerReward`: the per-tier amount, suppressed
when not strictly positive. -/
def calculateReferrerReward (input : CalculateRewardsInput) (rules : RewardRulesConfig)
    (tier : SubscriptionTier) : Option RewardEntry :=
  let amount := getRewardAmountForTier rules tier
  if amount ≤ 0 then none
  else
    some
      { userId := input.referrerUserId
        eventId := "ref_reward_" ++ input.referralId ++ "_" ++ input.referrerUserId
        source := "referral_reward"
        rewardJson :=
          { kind := "credit"
            amount := amount
            currency := rules.currency
            description := "Referral reward for referring " ++ input.referredExternalUserId
            referralId := some input.referralId
            referrerTier := some (match tier with
              | SubscriptionTier.free => "free"
              | SubscriptionTier.pro => "pro"
              | SubscriptionTier.power_pro => "power_pro")
            referredExternalUserId := some input.referredExternalUserId
            referrerExternalUserId := none } }

/-- Embedding of `calculateReferredReward`: the flat onboarding bonus,
suppressed when not strictly positive. -/
def calculateReferredReward (input : CalculateRewardsInput)
    (rules : RewardRulesConfig) : Option RewardEntry :=
  let amount := rules.onboarding_bonus
  if amount ≤ 0 then none
  else
    some
      { userId := input.referredUserId
        eventId := "onboard_" ++ input.referralId ++ "_" ++ input.referredUserId
        source := "onboarding_bonus"
        rewardJson :=
          { kind := "credit"
            amount := amount
            currency := rules.currency
            description := "Welcome bonus for signing up via referral"
            referralId := some input.referralId
            referrerTier := none
            referredExternalUserId := none
            referrerExternalUserId := some input.referrerExternalUserId } }

/-- Embedding of `calculateRewards` from the reward engine. -/
def calculateRewards (input : CalculateRewardsInput) : CalculateRewardsOutput :=
  let rules := normalizeRewardRules input.tenantRewardSettings
  let tier := normalizeSubscriptionTier (some input.referrerTier)
  { referrerReward := calculateReferrerReward input rules tier
    referredReward := calculateReferredReward input rules }

/-- Amount/currency pair actually surfaced to callers from a reward entry. -/
def rewardAmountCurrency (e : RewardEntry) : Int × String :=
  (e.rewardJson.amount, e.rewardJson.currency)

/-- Row of the `users` table (the columns the core reads). -/
structure UserRow where
  id : String
  tenantId : String
  externalUserId : String
  plan : String
  referralCode : String
deriving DecidableEq, Repr

/-- Row of the `referrals` table. -/
structure ReferralRow where
  id : String
  tenantId : String
  referrerUserId : String
  referredExternalUserId : String
  referredUserId : Option String
  refCodeUsed : String
  status : String
  createdAt : Nat
deriving DecidableEq, Repr

/-- Row of the `rewards_ledger` table. -/
structure LedgerRow where
  id : String
  tenantId : String
  userId : String
  source : String
  eventId : String
  rewardJson : RewardJson
deriving DecidableEq, Repr

/-- Row of the `events` table (payload contents are irrelevant to the claims,
so only the event type is kept). -/
structure EventRow where
  id : String
  tenantId : String
  eventType : String
deriving DecidableEq, Repr

/-- Row of the `webhook_deliveries` table. -/
structure DeliveryRow where
  id : String
  tenantId : String
  eventId : String
  url : String
  status : String
  attemptCount : Nat
  lastAttemptAt : Option Nat
  nextAttemptAt : Option Nat
  lastError : Option String
deriving DecidableEq, Repr

/-- Row of the `rate_limits` fixed-window counter table. -/
structure RateLimitRow where
  tenantId : String
  key : String
  windowStart : Nat
  count : Nat
deriving DecidableEq, Repr

/-- Row of the `tenants` table (the columns the core reads). -/
structure TenantRow where
  id : String
  webhookUrl : Option String
  referralSettingsJson : Option RawSettings
deriving DecidableEq, Repr

/-- Whole durable state: one list per table, plus a counter supplying the
fresh ids that `defaultRandom()` would generate. -/
structure Db where
  tenants : List TenantRow
  users : List UserRow
  referrals : List ReferralRow
  ledger : List LedgerRow
  events : List EventRow
  deliveries : List DeliveryRow
  rateLimits : List RateLimitRow
  nextId : Nat
deriving DecidableEq, Repr

/-- Deterministic stand-in for `defaultRandom()` primary keys. -/
def freshId (n : Nat) : String :=
  "uuid-" ++ toString n

/-- Does a ledger row with this (tenant, eventId, user) unique-index triple
already exist?  This is the `rewards_ledger_tenant_event_user_idx` constraint. -/
def ledgerKeyExists (ledger : List LedgerRow) (tenantId eventId userId : String) : Bool :=
  ledger.any (fun r => r.tenantId == tenantId && r.eventId == eventId && r.userId == userId)

/-- Ledger write as performed by the claim transaction: an insert with
`onConflictDoNothing` against the unique index, i.e. insert-if-absent. -/
def ledgerInsert (ledger : List LedgerRow) (row : LedgerRow) : List LedgerRow :=
  if ledgerKeyExists ledger row.tenantId row.eventId row.userId then ledger
  else ledger ++ [row]

/-- Embedding of `sumRewardsByUser` from src/lib/db-helpers.ts: the per-user
total is always recomputed by summing the amount of every matching entry. -/
def sumRewardsByUser (tenantId userId : String) (ledger : List LedgerRow) : Int :=
  (ledger.filter (fun r => r.tenantId == tenantId && r.userId == userId)).foldl
    (fun acc r => acc + r.rewardJson.amount) 0

/-- Result record returned by `checkRateLimit`. -/
structure RateLimitResult where
  allowed : Bool
  remaining : Nat
  resetAt : Nat
  retryAfterSeconds : Nat
deriving DecidableEq, Repr

/-- Upsert against the `rate_limits` unique index (tenant, key, window):
increment the matching row by `amount`, or insert a fresh row holding
`amount`; returns the resulting count alongside the new table. -/
def rlUpsert (rows : List RateLimitRow) (tenantId key : String) (windowStart amount : Nat) :
    Nat × List RateLimitRow :=
  match rows with
  | [] => (amount, [{ tenantId := tenantId, key := key, windowStart := windowStart, count := amount }])
  | r :: rest =>
    if r.tenantId == tenantId && r.key == key && r.windowStart == windowStart then
      (r.count + amount, { r with count := r.count + amount } :: rest)
    else
      let p := rlUpsert rest tenantId key windowStart amount
      (p.1, r :: p.2)

/-- Current count recorded for a (tenant, key, window) triple, zero if absent. -/
def rlCount (rows : List RateLimitRow) (tenantId key : String) (windowStart : Nat) : Nat :=
  match rows.find? (fun r => r.tenantId == tenantId && r.key == key && r.windowStart == windowStart) with
  | some r => r.count
  | none => 0

/-- Fixed-window length used by the rate limiter (one minute, in ms). -/
def WINDOW_MS : Nat := 60000

/-- Embedding of `checkRateLimit`: increment-then-check against a fixed
window.  `storeFails` models the catch branch around the storage call: when
the store errors the limiter fails open, allowing the request. -/
def checkRateLimit (rows : List RateLimitRow) (storeFails : Bool) (tenantId key : String)
    (limit : Nat) (now : Nat) : RateLimitResult × List RateLimitRow :=
  let windowStart := now - now % WINDOW_MS
  let resetAt := (windowStart + WINDOW_MS + 999) / 1000
  if storeFails then
    ({ allowed := true, remaining := limit, resetAt := resetAt, retryAfterSeconds := 0 }, rows)
  else
    let p := rlUpsert rows tenantId key windowStart 1
    let allowed := decide (p.1 ≤ limit)
    ({ allowed := allowed
       remaining := limit - p.1
       resetAt := resetAt
       retryAfterSeconds := if p.1 ≤ limit then 0 else (resetAt * 1000 - now + 999) / 1000 }, p.2)

/-- Embedding of `incrementRateLimitKey` (fire-and-forget increment whose
storage errors are swallowed). -/
def incrementRateLimitKey (rows : List RateLimitRow) (storeFails : Bool)
    (tenantId key : String) (now : Nat) (amount : Nat) : List RateLimitRow :=
  if storeFails then rows
  else (rlUpsert rows tenantId key (now - now % WINDOW_MS) amount).2

/-- Per-IP claim budget from `RATE_LIMITS.CLAIM_PER_IP`. -/
def CLAIM_PER_IP : Nat := 20

/-- Per-referred-user claim budget from `RATE_LIMITS.CLAIM_PER_USER`. -/
def CLAIM_PER_USER : Nat := 10

/-- Per-IP invalid-referral-code budget from `RATE_LIMITS.INVALID_REF_PER_IP`. -/
def INVALID_REF_PER_IP : Nat := 5

/-- Maximum accepted length of a referred external user id. -/
def MAX_EXTERNAL_USER_ID_LENGTH : Nat := 255

/-- Maximum accepted length of a referral code. -/
def MAX_REFERRAL_CODE_LENGTH : Nat := 50

/-- Parsed body of a claim request (after JSON parsing). -/
structure ClaimInput where
  referralCode : String
  referredUserId : String
deriving DecidableEq, Repr

/-- Response of the claim endpoint: either a stable error code with its HTTP
status, or the success body. -/
inductive ClaimOutcome where
  | failure (code : String) (httpStatus : Nat)
  | ok (referralId referrerUserId referredExternalUserId refCodeUsed referralStatus : String)
      (referrerReward referredReward : Option (Int × String))
      (alreadyProcessed : Bool) (httpStatus : Nat)
deriving DecidableEq, Repr

/-- Error code of a failure outcome, if any. -/
def ClaimOutcome.errCode : ClaimOutcome → Option String
  | ClaimOutcome.failure c _ => some c
  | ClaimOutcome.ok _ _ _ _ _ _ _ _ _ => none

/-- Referral id of a success outcome, if any. -/
def ClaimOutcome.refId : ClaimOutcome → Option String
  | ClaimOutcome.failure _ _ => none
  | ClaimOutcome.ok rid _ _ _ _ _ _ _ _ => some rid

/-- The alreadyProcessed flag of a success outcome, if any. -/
def ClaimOutcome.alreadyFlag : ClaimOutcome → Option Bool
  | ClaimOutcome.failure _ _ => none
  | ClaimOutcome.ok _ _ _ _ _ _ _ ap _ => some ap

/-- Reward fields of a success outcome, if any. -/
def ClaimOutcome.rewardPair :
    ClaimOutcome → Option (Option (Int × String) × Option (Int × String))
  | ClaimOutcome.failure _ _ => none
  | ClaimOutcome.ok _ _ _ _ _ r1 r2 _ _ => some (r1, r2)

/-- Is this outcome a success response? -/
def ClaimOutcome.isSuccess : ClaimOutcome → Bool
  | ClaimOutcome.failure _ _ => false
  | ClaimOutcome.ok _ _ _ _ _ _ _ _ _ => true

/-- Lookup of `getReferralByReferredExternalUserId`. -/
def findReferralByReferred (referrals : List ReferralRow) (tenantId referredExternalUserId : String) :
    Option ReferralRow :=
  referrals.find? (fun r => r.tenantId == tenantId && r.referredExternalUserId == referredExternalUserId)

/-- Lookup of `getUserByReferralCode`. -/
def findUserByReferralCode (users : List UserRow) (tenantId referralCode : String) : Option UserRow :=
  users.find? (fun u => u.tenantId == tenantId && u.referralCode == referralCode)

/-- Lookup of `getUserByExternalId`. -/
def findUserByExternalId (users : List UserRow) (tenantId externalUserId : String) : Option UserRow :=
  users.find? (fun u => u.tenantId == tenantId && u.externalUserId == externalUserId)

/-- Embedding of `countReferralsByReferrer` (the referral-cap count query). -/
def countReferralsByReferrer (referrals : List ReferralRow) (tenantId referrerUserId : String) : Nat :=
  (referrals.filter (fun r => r.tenantId == tenantId && r.referrerUserId == referrerUserId)).length

/-- Success response built from an existing referral row on the idempotent
replay path: the referrer id is resolved back to its external id when the user
row still exists, and both reward fields are null. -/
def alreadyOutcome (users : List UserRow) (r : ReferralRow) : ClaimOutcome :=
  let referrerExternal :=
    match users.find? (fun u => u.id == r.referrerUserId) with
    | some u => u.externalUserId
    | none => r.referrerUserId
  ClaimOutcome.ok r.id referrerExternal r.referredExternalUserId r.refCodeUsed r.status
    none none true 200

/-- Insert one reward entry into the ledger with `onConflictDoNothing`,
consuming a fresh primary key only when a row is actually written. -/
def insertLedgerEntry (st : Db) (tenantId : String) (e : RewardEntry) : Db :=
  if ledgerKeyExists st.ledger tenantId e.eventId e.userId then st
  else
    { st with
      ledger := st.ledger ++
        [{ id := freshId st.nextId, tenantId := tenantId, userId := e.userId,
           source := e.source, eventId := e.eventId, rewardJson := e.rewardJson }]
      nextId := st.nextId + 1 }

/-- Create-or-fetch of the referred user row inside the transaction: an insert
with `onConflictDoNothing` against the (tenant, externalUserId) unique index,
re-reading the row on conflict. -/
def getOrCreateReferredUser (st : Db) (tenantId externalUserId : String) : Option UserRow × Db :=
  match findUserByExternalId st.users tenantId externalUserId with
  | some u => (some u, st)
  | none =>
    if st.users.any (fun u => u.tenantId == tenantId && u.externalUserId == externalUserId) then
      (findUserByExternalId st.users tenantId externalUserId, st)
    else
      let nu : UserRow :=
        { id := freshId st.nextId, tenantId := tenantId,
          externalUserId := externalUserId, plan := "free",
          referralCode := "ref_pending_" ++ strTake externalUserId 8 }
      (some nu, { st with users := st.users ++ [nu], nextId := st.nextId + 1 })

/-- Atomic phase of the claim operation (the SERIALIZABLE transaction body of
`handleClaimReferral`): re-check for an existing referral, create-or-fetch the
referred user tolerating the unique-constraint race, insert the referral,
evaluate rewards, write up to two ledger entries, and append the
referral.claimed event.  Returns the response, the committed state, and the id
of the new event when one was created. -/
def claimTransaction (st : Db) (tenantId : String) (input : ClaimInput) (referrer : UserRow)
    (settings : Option RawSettings) (now : Nat) : ClaimOutcome × Db × Option String :=
  match findReferralByReferred st.referrals tenantId input.referredUserId with
  | some doubleCheck => (alreadyOutcome st.users doubleCheck, st, none)
  | none =>
    match getOrCreateReferredUser st tenantId input.referredUserId with
    | (none, st1) => (ClaimOutcome.failure "INTERNAL_ERROR" 500, st1, none)
    | (some referredUser, st1) =>
      let newReferral : ReferralRow :=
        { id := freshId st1.nextId, tenantId := tenantId, referrerUserId := referrer.id,
          referredExternalUserId := input.referredUserId, referredUserId := some referredUser.id,
          refCodeUsed := input.referralCode, status := "completed", createdAt := now }
      let st2 := { st1 with referrals := st1.referrals ++ [newReferral], nextId := st1.nextId + 1 }
      let rewardCalc := calculateRewards
        { referralId := newReferral.id
          referrerUserId := referrer.id
          referrerExternalUserId := referrer.externalUserId
          referrerTier := referrer.plan
          referredUserId := referredUser.id
          referredExternalUserId := input.referredUserId
          tenantRewardSettings := settings }
      let st3 :=
        match rewardCalc.referrerReward with
        | some e => insertLedgerEntry st2 tenantId e
        | none => st2
      let st4 :=
        match rewardCalc.referredReward with
        | some e => insertLedgerEntry st3 tenantId e
        | none => st3
      let claimEvent : EventRow :=
        { id := freshId st4.nextId, tenantId := tenantId, eventType := "referral.claimed" }
      let st5 := { st4 with events := st4.events ++ [claimEvent], nextId := st4.nextId + 1 }
      (ClaimOutcome.ok newReferral.id referrer.externalUserId newReferral.referredExternalUserId
          newReferral.refCodeUsed newReferral.status
          (rewardCalc.referrerReward.map rewardAmountCurrency)
          (rewardCalc.referredReward.map rewardAmountCurrency)
          false 201,
        st5, some claimEvent.id)

/-- Destination webhook URL configured for a tenant, if any. -/
def tenantWebhookUrl (st : Db) (tenantId : String) : Option String :=
  (st.tenants.find? (fun t => t.id == tenantId)).bind (fun t => t.webhookUrl)

/-- Embedding of `enqueueWebhookForExistingEvent`: a no-op when the tenant has
no (or a blank, hence falsy) destination URL, otherwise it inserts a fresh
pending delivery row due immediately. -/
def enqueueWebhookForExistingEvent (st : Db) (tenantId eventId : String) (now : Nat) : Db :=
  match tenantWebhookUrl st tenantId with
  | none => st
  | some url =>
    if url = "" then st
    else
      { st with
        deliveries := st.deliveries ++
          [{ id := freshId st.nextId, tenantId := tenantId, eventId := eventId, url := url,
             status := "pending", attemptCount := 0, lastAttemptAt := none,
             nextAttemptAt := some now, lastError := none }]
        nextId := st.nextId + 1 }

/-- Pipeline of `handleClaimReferral` up to and including the committed
transaction, in source order: per-IP rate limit, zod shape check, length
bounds, per-user rate limit, idempotency short-circuit, referrer resolution
(with invalid-code counting), self-referral check, referral cap, then the
transaction.  `rlFail` models a failing rate-limit store (its catch
branches). -/
def claimCore (st : Db) (tenantId clientIp : String) (input : ClaimInput) (now : Nat)
    (rlFail : Bool) : ClaimOutcome × Db × Option String :=
  let ipc := checkRateLimit st.rateLimits rlFail tenantId ("claim:ip:" ++ clientIp) CLAIM_PER_IP now
  let st1 := { st with rateLimits := ipc.2 }
  if ipc.1.allowed = false then (ClaimOutcome.failure "RATE_LIMITED" 429, st1, none)
  else if input.referralCode = "" ∨ input.referredUserId = "" then
    (ClaimOutcome.failure "INVALID_REQUEST" 400, st1, none)
  else if input.referredUserId.length > MAX_EXTERNAL_USER_ID_LENGTH then
    (ClaimOutcome.failure "INVALID_REQUEST" 400, st1, none)
  else if input.referralCode.length > MAX_REFERRAL_CODE_LENGTH then
    (ClaimOutcome.failure "INVALID_REQUEST" 400, st1, none)
  else
    let uc := checkRateLimit st1.rateLimits rlFail tenantId ("claim:user:" ++ input.referredUserId)
      CLAIM_PER_USER now
    let st2 := { st1 with rateLimits := uc.2 }
    if uc.1.allowed = false then (ClaimOutcome.failure "RATE_LIMITED" 429, st2, none)
    else
      match findReferralByReferred st2.referrals tenantId input.referredUserId with
      | some existing => (alreadyOutcome st2.users existing, st2, none)
      | none =>
        match findUserByReferralCode st2.users tenantId input.referralCode with
        | none =>
          let st3 := { st2 with
            rateLimits := incrementRateLimitKey st2.rateLimits rlFail tenantId
              ("invalid_ref:ip:" ++ clientIp) now 1 }
          let ic := checkRateLimit st3.rateLimits rlFail tenantId
            ("invalid_ref:ip:" ++ clientIp) INVALID_REF_PER_IP now
          let st4 := { st3 with rateLimits := ic.2 }
          if ic.1.allowed = false then (ClaimOutcome.failure "RATE_LIMITED" 429, st4, none)
          else (ClaimOutcome.failure "REFERRAL_CODE_NOT_FOUND" 404, st4, none)
        | some referrer =>
          if referrer.externalUserId = input.referredUserId then
            (ClaimOutcome.failure "SELF_REFERRAL" 400, st2, none)
          else
            let settings :=
              (st2.tenants.find? (fun t => t.id == tenantId)).bind (fun t => t.referralSettingsJson)
            let capHit :=
              match settings with
              | some s =>
                match s.max_referrals_per_referrer with
                | some (JVal.num m) =>
                  if 0 < m then
                    decide ((countReferralsByReferrer st2.referrals tenantId referrer.id : Int) ≥ m)
                  else false
                | _ => false
              | none => false
            if capHit then (ClaimOutcome.failure "REFERRAL_CAP_REACHED" 400, st2, none)
            else claimTransaction st2 tenantId input referrer settings now

/-- Full claim endpoint: the pipeline above, then the post-commit best-effort
webhook enqueue whose failure (modelled by `enqueueFails`) is swallowed and
never reflected in the response. -/
def handleClaimReferral (st : Db) (tenantId clientIp : String) (input : ClaimInput) (now : Nat)
    (rlFail enqueueFails : Bool) : ClaimOutcome × Db :=
  let r := claimCore st tenantId clientIp input now rlFail
  (r.1,
    match r.2.2 with
    | none => r.2.1
    | some eventId =>
      if enqueueFails then r.2.1 else enqueueWebhookForExistingEvent r.2.1 tenantId eventId now)

/-- Fixed backoff table of the dispatcher, in milliseconds
(immediate, 10s, 60s, 5m, 30m, 2h). -/
def RETRY_DELAYS_MS : List Nat :=
  [0, 10000, 60000, 300000, 1800000, 7200000]

/-- Default retry budget of the dispatcher (`WEBHOOK_RETRY_LIMIT`). -/
def WEBHOOK_RETRY_LIMIT : Nat := 6

/-- Default batch size of the dispatcher poll (`WEBHOOK_WORKER_BATCH_SIZE`). -/
def BATCH_SIZE : Nat := 10

/-- Embedding of `getNextAttemptDelay`: index the backoff table, holding at
its last entry past the end. -/
def getNextAttemptDelay (attemptCount : Nat) : Nat :=
  if attemptCount ≥ RETRY_DELAYS_MS.length then RETRY_DELAYS_MS.getLastD 0
  else RETRY_DELAYS_MS.getD attemptCount 0

/-- Outcome of one outbound HTTP attempt, as far as the dispatcher can
observe it: a response with a status code, a network error, or a timeout. -/
inductive AttemptOutcome where
  | httpResponse (status : Nat) (body : String)
  | netError (msg : String)
  | timedOut
deriving DecidableEq, Repr

/-- Did the attempt succeed (`response.ok`, i.e. a 2xx status)? -/
def attemptSuccess : AttemptOutcome → Bool
  | AttemptOutcome.httpResponse status _ => decide (200 ≤ status ∧ status < 300)
  | AttemptOutcome.netError _ => false
  | AttemptOutcome.timedOut => false

/-- Error string recorded for a failed attempt. -/
def failureMessage (timeoutMs : Nat) : AttemptOutcome → String
  | AttemptOutcome.httpResponse status body =>
    "HTTP " ++ toString status ++ ": " ++ strTake body 200
  | AttemptOutcome.netError msg => strTake msg 200
  | AttemptOutcome.timedOut => "Timeout after " ++ toString timeoutMs ++ "ms"

/-- Update applied to the delivery row when its referenced event is missing
from the event log: terminal failure, no attempt counted. -/
def markEventMissing (now : Nat) (r : DeliveryRow) : DeliveryRow :=
  { r with status := "failed", lastError := some "Event not found",
           lastAttemptAt := some now, nextAttemptAt := none }

/-- Update applied to the delivery row after a successful attempt. -/
def markSuccess (now newAttemptCount : Nat) (r : DeliveryRow) : DeliveryRow :=
  { r with status := "success", attemptCount := newAttemptCount,
           lastAttemptAt := some now, lastError := none, nextAttemptAt := none }

/-- Update applied to the delivery row after a failed attempt: the count rises
to `newAttemptCount`; below the retry limit the row stays pending and is
rescheduled by the backoff table, at the limit it becomes failed (exhausted). -/
def markFailure (outcome : AttemptOutcome) (now retryLimit newAttemptCount : Nat)
    (r : DeliveryRow) : DeliveryRow :=
  { r with
    status := if newAttemptCount ≥ retryLimit then "failed" else "pending"
    attemptCount := newAttemptCount
    lastAttemptAt := some now
    lastError := some (failureMessage 30000 outcome)
    nextAttemptAt :=
      if newAttemptCount ≥ retryLimit then none
      else some (now + getNextAttemptDelay newAttemptCount) }

/-- Lookup of an event by tenant and id, as the dispatcher performs it. -/
def findEvent (events : List EventRow) (tenantId eventId : String) : Option EventRow :=
  events.find? (fun e => e.tenantId == tenantId && e.id == eventId)

/-- Apply an update function to the delivery row with the given id. -/
def replaceDelivery (ds : List DeliveryRow) (id : String) (f : DeliveryRow → DeliveryRow) :
    List DeliveryRow :=
  ds.map (fun r => if r.id == id then f r else r)

/-- Append a domain event row, consuming a fresh id. -/
def appendEvent (st : Db) (tenantId eventType : String) : Db :=
  { st with
    events := st.events ++ [{ id := freshId st.nextId, tenantId := tenantId, eventType := eventType }]
    nextId := st.nextId + 1 }

/-- Embedding of `processDelivery`: load the referenced event (missing event
is a terminal failure with no attempt made), otherwise record the attempt
outcome and either mark success, reschedule, or exhaust, appending the
corresponding domain event. -/
def processDelivery (st : Db) (d : DeliveryRow) (outcome : AttemptOutcome) (now retryLimit : Nat) :
    Db :=
  match findEvent st.events d.tenantId d.eventId with
  | none =>
    { st with deliveries := replaceDelivery st.deliveries d.id (markEventMissing now) }
  | some _ =>
    let newAttemptCount := d.attemptCount + 1
    if attemptSuccess outcome then
      appendEvent
        { st with deliveries := replaceDelivery st.deliveries d.id (markSuccess now newAttemptCount) }
        d.tenantId "webhook.sent"
    else
      appendEvent
        { st with deliveries :=
            replaceDelivery st.deliveries d.id (markFailure outcome now retryLimit newAttemptCount) }
        d.tenantId
        (if newAttemptCount ≥ retryLimit then "webhook.exhausted" else "webhook.failed")

/-- Is a delivery row due for an attempt (`status = pending AND
next_attempt_at <= now`; a NULL next_attempt_at never compares true)? -/
def isDue (d : DeliveryRow) (now : Nat) : Bool :=
  d.status == "pending" &&
    (match d.nextAttemptAt with
     | some t => decide (t ≤ now)
     | none => false)

/-- Embedding of `fetchDueDeliveries`: the due rows, capped at the batch size. -/
def fetchDueDeliveries (st : Db) (now : Nat) : List DeliveryRow :=
  (st.deliveries.filter (fun d => isDue d now)).take BATCH_SIZE

/-- Response of the replay trigger endpoint. -/
inductive ReplayResult where
  | failure (code : String) (httpStatus : Nat)
  | ok (deliveryId : String) (httpStatus : Nat)
deriving DecidableEq, Repr

/-- Embedding of the replay trigger (POST /api/v1/webhooks/replay, from its
validated input onward): resolve the event for the tenant, require a
configured (truthy) webhook URL, then insert a brand-new pending delivery row
due immediately, never touching prior rows. -/
def replayEnqueue (st : Db) (tenantId eventId : String) (now : Nat) : ReplayResult × Db :=
  match findEvent st.events tenantId eventId with
  | none => (ReplayResult.failure "EVENT_NOT_FOUND" 404, st)
  | some ev =>
    match tenantWebhookUrl st tenantId with
    | none => (ReplayResult.failure "WEBHOOK_NOT_CONFIGURED" 400, st)
    | some url =>
      if url = "" then (ReplayResult.failure "WEBHOOK_NOT_CONFIGURED" 400, st)
      else
        let row : DeliveryRow :=
          { id := freshId st.nextId, tenantId := tenantId, eventId := ev.id, url := url,
            status := "pending", attemptCount := 0, lastAttemptAt := none,
            nextAttemptAt := some now, lastError := none }
        (ReplayResult.ok row.id 201,
          { st with deliveries := st.deliveries ++ [row], nextId := st.nextId + 1 })

/-- Reference: configured numeric field, with documented default. -/
def specNumField (v : Option JVal) (d : Int) : Int :=
  match v with
  | some (JVal.num n) => n
  | _ => d

/-- Reference: per-tier referrer amount, from the claim text. -/
def specTierAmount (raw : Option RawSettings) (tier : String) : Int :=
  let t := trimString (lowerString tier)
  match raw with
  | none => if t = "pro" then 200 else if t = "power_pro" ∨ t = "powerpro" then 300 else 100
  | some r =>
    if t = "pro" then specNumField r.referral_reward_pro 200
    else if t = "power_pro" ∨ t = "powerpro" then specNumField r.referral_reward_power_pro 300
    else specNumField r.referral_reward_free 100

/-- Reference: onboarding bonus with default 0. -/
def specOnboarding (raw : Option RawSettings) : Int :=
  match raw with
  | none => 0
  | some r => specNumField r.onboarding_bonus 0

/-- Reference: configured currency, defaulting to AUD when missing or blank. -/
def specCurrency (raw : Option RawSettings) : String :=
  match raw with
  | none => "AUD"
  | some r =>
    match r.currency with
    | some (JVal.str s) => if trimString s = "" then "AUD" else s
    | _ => "AUD"

/-- Reference evaluator from the claim text. -/
def evaluateSpec (raw : Option RawSettings) (tier : String) :
    Option (Int × String) × Option (Int × String) :=
  let c := specCurrency raw
  let a := specTierAmount raw tier
  let b := specOnboarding raw
  (if 0 < a then some (a, c) else none, if 0 < b then some (b, c) else none)

/-- Example reward configuration: 200 to pro-tier referrers, no onboarding
bonus (the end-to-end scenario of the spec). -/
def exSettings : RawSettings :=
  { onboarding_bonus := some (JVal.num 0)
    referral_reward_free := none
    referral_reward_pro := some (JVal.num 200)
    referral_reward_power_pro := none
    currency := none
    max_referrals_per_referrer := none }

/-- Example tenant with a configured webhook URL. -/
def exTenant : TenantRow :=
  { id := "t1", webhookUrl := some "https://example.com/hook", referralSettingsJson := some exSettings }

/-- Example referrer user owning code REF123. -/
def exReferrer : UserRow :=
  { id := "uid-1", tenantId := "t1", externalUserId := "u1", plan := "pro", referralCode := "REF123" }

/-- Example committed referral row for referred user u2. -/
def exReferral : ReferralRow :=
  { id := "r-1", tenantId := "t1", referrerUserId := "uid-1", referredExternalUserId := "u2",
    referredUserId := some "uid-2", refCodeUsed := "REF123", status := "completed", createdAt := 0 }

/-- State in which the claim for u2 has already been processed. -/
def replayDb : Db :=
  { tenants := [exTenant], users := [exReferrer], referrals := [exReferral], ledger := [],
    events := [], deliveries := [], rateLimits := [], nextId := 10 }

/-- The replayed claim input. -/
def replayInput : ClaimInput :=
  { referralCode := "REF123", referredUserId := "u2" }

/-- Rate-limit row with the per-IP claim budget already used up. -/
def ipExhaustedRow : RateLimitRow :=
  { tenantId := "t1", key := "claim:ip:9.9.9.9", windowStart := 0, count := 20 }

/-- The replay state with the caller's per-IP counter exhausted. -/
def replayLimitedDb : Db :=
  { replayDb with rateLimits := [ipExhaustedRow] }

/-- State with no data at all. -/
def emptyDb : Db :=
  { tenants := [], users := [], referrals := [], ledger := [], events := [], deliveries := [],
    rateLimits := [], nextId := 0 }

/-- Empty state with the caller's per-IP counter exhausted. -/
def limitedIpDb : Db :=
  { emptyDb with rateLimits := [ipExhaustedRow] }

/-- A 51-character referral code, one over the accepted bound. -/
def longCode : String :=
  "XXXXXXXXXXXXXXXXXXXXXXXXXXXXXXXXXXXXXXXXXXXXXXXXXXX"

/-- Rate-limit row with the invalid-code counter close to its budget. -/
def invalidRefNearLimitRow : RateLimitRow :=
  { tenantId := "t1", key := "invalid_ref:ip:9.9.9.9", windowStart := 0, count := 4 }

/-- State where prior invalid-code attempts nearly used up the budget. -/
def invalidRefDb : Db :=
  { tenants := [exTenant], users := [exReferrer], referrals := [], ledger := [], events := [],
    deliveries := [], rateLimits := [invalidRefNearLimitRow], nextId := 0 }

/-- Same state with fresh counters. -/
def invalidRefFreshDb : Db :=
  { invalidRefDb with rateLimits := [] }

/-- A claim naming a referral code no user owns. -/
def unknownCodeInput : ClaimInput :=
  { referralCode := "NOPE", referredUserId := "u9" }

/-- Example reward payload worth 200 AUD. -/
def exRewardJson : RewardJson :=
  { kind := "credit", amount := 200, currency := "AUD", description := "example",
    referralId := none, referrerTier := none, referredExternalUserId := none,
    referrerExternalUserId := none }

/-- Example reward ledger row. -/
def exLedgerRow : LedgerRow :=
  { id := "uuid-2", tenantId := "t1", userId := "uid-1", source := "referral_reward",
    eventId := "ref_reward_r-1_uid-1", rewardJson := exRewardJson }

/-- Example domain event. -/
def exEvent : EventRow :=
  { id := "e-1", tenantId := "t1", eventType := "referral.claimed" }

/-- Example pending delivery for that event. -/
def exDelivery : DeliveryRow :=
  { id := "d-1", tenantId := "t1", eventId := "e-1", url := "https://example.com/hook",
    status := "pending", attemptCount := 0, lastAttemptAt := none, nextAttemptAt := some 0,
    lastError := none }

/-- State holding the event and its pending delivery. -/
def dispatchDb : Db :=
  { tenants := [exTenant], users := [], referrals := [], ledger := [], events := [exEvent],
    deliveries := [exDelivery], rateLimits := [], nextId := 0 }

/-- Delivery row whose referenced event is absent from the event log. -/
def orphanDelivery : DeliveryRow :=
  { exDelivery with id := "d-2", eventId := "e-missing" }

/-- State holding only the orphan delivery. -/
def orphanDb : Db :=
  { dispatchDb with deliveries := [orphanDelivery] }
lemma ledgerKeyExists_append_self (L : List LedgerRow) (row : LedgerRow) :
    ledgerKeyExists (L ++ [row]) row.tenantId row.eventId row.userId = true := by
  simp [ledgerKeyExists, List.any_append]

lemma ledgerInsert_of_exists (M : List LedgerRow) (row : LedgerRow)
    (h : ledgerKeyExists M row.tenantId row.eventId row.userId = true) :
    ledgerInsert M row = M := by
  simp [ledgerInsert, h]

/-- C2: inserting a reward ledger entry whose (tenant, eventId/idempotency
key, user) triple already exists in the ledger is a no-op: the insert adds no
row, a repeated insert of the same entry leaves the ledger unchanged, and the
per-user total computed by `sumRewardsByUser` does not change. -/
theorem ledger_insert_idempotent (L : List LedgerRow) (row : LedgerRow) (t u : String) :
    (ledgerKeyExists L row.tenantId row.eventId row.userId = true → ledgerInsert L row = L) ∧
    ledgerInsert (ledgerInsert L row) row = ledgerInsert L row ∧
    sumRewardsByUser t u (ledgerInsert (ledgerInsert L row) row) =
      sumRewardsByUser t u (ledgerInsert L row) := by
  have h2 : ledgerInsert (ledgerInsert L row) row = ledgerInsert L row := by
    by_cases h : ledgerKeyExists L row.tenantId row.eventId row.userId = true
    · rw [ledgerInsert_of_exists L row h, ledgerInsert_of_exists L row h]
    · have hins : ledgerInsert L row = L ++ [row] := by
        simp [ledgerInsert, h]
      rw [hins, ledgerInsert_of_exists _ _ (ledgerKeyExists_append_self L row)]
  exact ⟨ledgerInsert_of_exists L row, h2, by rw [h2]⟩

lemma handleClaimReferral_fst (st : Db) (tenantId clientIp : String) (input : ClaimInput)
    (now : Nat) (rlFail ef : Bool) :
    (handleClaimReferral st tenantId clientIp input now rlFail ef).1 =
      (claimCore st tenantId clientIp input now rlFail).1 := rfl

lemma claimTransaction_errCode (st : Db) (tenantId : String) (input : ClaimInput)
    (referrer : UserRow) (settings : Option RawSettings) (now : Nat) :
    (claimTransaction st tenantId input referrer settings now).1.errCode ≠ some "RATE_LIMITED" := by
  unfold claimTransaction
  split
  · simp [alreadyOutcome, ClaimOutcome.errCode]
  · split <;> simp [ClaimOutcome.errCode]

lemma claimCore_failopen_errCode (st : Db) (tenantId clientIp : String) (input : ClaimInput)
    (now : Nat) :
    (claimCore st tenantId clientIp input now true).1.errCode ≠ some "RATE_LIMITED" := by
  unfold claimCore
  simp only [checkRateLimit, if_true]
  repeat' split
  all_goals first
    | exact claimTransaction_errCode _ _ _ _ _ _
    | simp_all [ClaimOutcome.errCode, alreadyOutcome]

/-- C9: the rate limiter fails open.  When the rate-limit storage operation
errors, `checkRateLimit` returns allowed with retryAfterSeconds 0 (leaving the
counter table untouched), and consequently a claim request is never rejected
with RATE_LIMITED merely because the rate-limit store is unavailable. -/
theorem rate_limit_fails_open :
    (∀ (rows : List RateLimitRow) (tenantId key : String) (limit now : Nat),
      (checkRateLimit rows true tenantId key limit now).1.allowed = true ∧
      (checkRateLimit rows true tenantId key limit now).1.retryAfterSeconds = 0 ∧
      (checkRateLimit rows true tenantId key limit now).2 = rows) ∧
    (∀ (st : Db) (tenantId clientIp : String) (input : ClaimInput) (now : Nat) (ef : Bool),
      (handleClaimReferral st tenantId clientIp input now true ef).1.errCode ≠
        some "RATE_LIMITED") := by
  refine ⟨fun rows tenantId key limit now => ⟨rfl, rfl, rfl⟩, ?_⟩
  intro st tenantId clientIp input now ef
  rw [handleClaimReferral_fst]
  exact claimCore_failopen_errCode st tenantId clientIp input now

lemma normTier_eq (s : String) :
    normalizeSubscriptionTier (some s) = normalizedTierOf (trimString (lowerString s)) := by
  by_cases h : s = ""
  · subst h; decide
  · simp [normalizeSubscriptionTier, h]

lemma tierAmount_agrees (raw : Option RawSettings) (tier : String) :
    getRewardAmountForTier (normalizeRewardRules raw) (normalizeSubscriptionTier (some tier)) =
      specTierAmount raw tier := by
  rw [normTier_eq]
  unfold specTierAmount normalizedTierOf getRewardAmountForTier
  by_cases h1 : trimString (lowerString tier) = "pro"
  · cases raw <;> simp [h1, normalizeRewardRules, specNumField, DEFAULT_REWARD_RULES]
  · by_cases h2 : trimString (lowerString tier) = "power_pro" ∨ trimString (lowerString tier) = "powerpro"
    · cases raw <;> simp [h1, h2, normalizeRewardRules, specNumField, DEFAULT_REWARD_RULES]
    · cases raw <;> simp [h1, h2, normalizeRewardRules, specNumField, DEFAULT_REWARD_RULES]

lemma currency_agrees (raw : Option RawSettings) :
    (normalizeRewardRules raw).currency = specCurrency raw := by
  cases raw with
  | none => rfl
  | some r =>
    cases h : r.currency with
    | none => simp [normalizeRewardRules, specCurrency, h, DEFAULT_REWARD_RULES]
    | some v =>
      cases v with
      | num n => simp [normalizeRewardRules, specCurrency, h, DEFAULT_REWARD_RULES]
      | str s =>
        by_cases hs : trimString s = "" <;>
          simp [normalizeRewardRules, specCurrency, h, hs, DEFAULT_REWARD_RULES]
      | other => simp [normalizeRewardRules, specCurrency, h, DEFAULT_REWARD_RULES]

lemma int_pos_iff_not_le (a : Int) : (0 < a) ↔ ¬ a ≤ 0 := by omega

lemma onboarding_agrees (raw : Option RawSettings) :
    (normalizeRewardRules raw).onboarding_bonus = specOnboarding raw := by
  cases raw with
  | none => rfl
  | some r => cases h : r.onboarding_bonus with
    | none => simp [normalizeRewardRules, specOnboarding, specNumField, h, DEFAULT_REWARD_RULES]
    | some v => cases v <;> simp [normalizeRewardRules, specOnboarding, specNumField, h, DEFAULT_REWARD_RULES]

/-- C4: the reward evaluator `calculateRewards` agrees with the reference
definition `evaluateSpec` built from the claim text: the referrer amount is
the configured per-tier amount for the normalized tier (unknown or missing
tier falling back to the free amount), missing or non-numeric rule fields fall
back to the documented defaults (free 100, pro 200, power_pro 300, onboarding
bonus 0), a missing or blank currency defaults to AUD, and a side whose
computed amount is zero or negative yields no reward entry at all, which is
what suppresses the corresponding ledger row. -/
theorem calculateRewards_matches_reference (input : CalculateRewardsInput) :
    (calculateRewards input).referrerReward.map rewardAmountCurrency =
      (evaluateSpec input.tenantRewardSettings input.referrerTier).1 ∧
    (calculateRewards input).referredReward.map rewardAmountCurrency =
      (evaluateSpec input.tenantRewardSettings input.referrerTier).2 ∧
    ((calculateRewards input).referrerReward = none ↔
      specTierAmount input.tenantRewardSettings input.referrerTier ≤ 0) ∧
    ((calculateRewards input).referredReward = none ↔
      specOnboarding input.tenantRewardSettings ≤ 0) := by
  have hA := tierAmount_agrees input.tenantRewardSettings input.referrerTier
  have hC := currency_agrees input.tenantRewardSettings
  have hB := onboarding_agrees input.tenantRewardSettings
  simp only [calculateRewards, calculateReferrerReward, calculateReferredReward, evaluateSpec,
    hA, hC, hB]
  by_cases h1 : specTierAmount input.tenantRewardSettings input.referrerTier ≤ 0 <;>
    by_cases h2 : specOnboarding input.tenantRewardSettings ≤ 0 <;>
      simp [h1, h2, rewardAmountCurrency, int_pos_iff_not_le]

lemma getNextAttemptDelay_eq (n : Nat) :
    getNextAttemptDelay n = RETRY_DELAYS_MS.getD n 7200000 := by
  rcases Nat.lt_or_ge n 6 with h | h
  · interval_cases n <;> decide
  · have hlen : RETRY_DELAYS_MS.length ≤ n := by
      simp only [RETRY_DELAYS_MS, List.length]; omega
    rw [List.getD_eq_default _ _ hlen]
    unfold getNextAttemptDelay
    rw [if_pos hlen]
    decide

lemma isDue_spec (row : DeliveryRow) (t : Nat) :
    isDue row t = true ↔ row.status = "pending" ∧ ∃ ts, row.nextAttemptAt = some ts ∧ ts ≤ t := by
  unfold isDue
  rcases h : row.nextAttemptAt with _ | ts <;> simp [h, beq_iff_eq]

lemma fetchDue_spec (s2 : Db) (t : Nat) (row : DeliveryRow)
    (hmem : row ∈ fetchDueDeliveries s2 t) :
    row.status = "pending" ∧ ∃ ts, row.nextAttemptAt = some ts ∧ ts ≤ t := by
  have hmem2 : row ∈ s2.deliveries.filter (fun d => isDue d t) :=
    List.mem_of_mem_take hmem
  exact (isDue_spec row t).mp (List.mem_filter.mp hmem2).2

/-- C3: when a due pending delivery attempt fails (non-2xx, timeout or
network error), the dispatcher bumps attempt_count to its old value plus one;
below the retry limit (default 6) the row stays pending with next_attempt_at
equal to now plus the fixed backoff table entry for the new count (the table
[immediate, 10s, 60s, 5m, 30m, 2h] holding at its last value), and a
webhook.failed event is appended; at the limit the row becomes failed with
next_attempt_at null and a webhook.exhausted event is appended; a failed row
is never due again for the poller, which selects only pending rows whose
next_attempt_at is at most now. -/
theorem webhook_failure_retry_transition (st : Db) (d : DeliveryRow) (outcome : AttemptOutcome)
    (now retryLimit : Nat) (ev : EventRow)
    (hev : findEvent st.events d.tenantId d.eventId = some ev)
    (hfail : attemptSuccess outcome = false) :
    (processDelivery st d outcome now retryLimit).deliveries =
      replaceDelivery st.deliveries d.id (markFailure outcome now retryLimit (d.attemptCount + 1)) ∧
    (processDelivery st d outcome now retryLimit).events =
      st.events ++ [EventRow.mk (freshId st.nextId) d.tenantId (if d.attemptCount + 1 ≥ retryLimit then "webhook.exhausted" else "webhook.failed")] ∧
    (∀ r : DeliveryRow,
      (markFailure outcome now retryLimit (d.attemptCount + 1) r).attemptCount = d.attemptCount + 1) ∧
    (d.attemptCount + 1 < retryLimit →
      ∀ r : DeliveryRow,
        (markFailure outcome now retryLimit (d.attemptCount + 1) r).status = "pending" ∧
        (markFailure outcome now retryLimit (d.attemptCount + 1) r).nextAttemptAt =
          some (now + getNextAttemptDelay (d.attemptCount + 1))) ∧
    (d.attemptCount + 1 ≥ retryLimit →
      ∀ r : DeliveryRow,
        (markFailure outcome now retryLimit (d.attemptCount + 1) r).status = "failed" ∧
        (markFailure outcome now retryLimit (d.attemptCount + 1) r).nextAttemptAt = none) ∧
    (∀ k : Nat, getNextAttemptDelay k = RETRY_DELAYS_MS.getD k 7200000) ∧
    WEBHOOK_RETRY_LIMIT = 6 ∧
    (∀ (row : DeliveryRow) (t : Nat), row.status = "failed" → isDue row t = false) ∧
    (∀ (s2 : Db) (t : Nat) (row : DeliveryRow), row ∈ fetchDueDeliveries s2 t →
      row.status = "pending" ∧ ∃ ts, row.nextAttemptAt = some ts ∧ ts ≤ t) := by
  refine ⟨?_, ?_, ?_, ?_, ?_, getNextAttemptDelay_eq, rfl, ?_, fetchDue_spec⟩
  · unfold processDelivery
    rw [hev]
    simp [hfail, appendEvent]
  · unfold processDelivery
    rw [hev]
    simp [hfail, appendEvent]
  · intro r; simp [markFailure]
  · intro hlt r
    have : ¬ (d.attemptCount + 1 ≥ retryLimit) := by omega
    simp [markFailure, this]
  · intro hge r
    simp [markFailure, hge]
  · intro row t hfailed
    simp [isDue, hfailed]

/-- C10: when the dispatcher picks up a delivery whose referenced event does
not exist, it marks the row failed with lastError set to the string Event not
found and next_attempt_at null, leaves attempt_count unchanged, appends no
domain event, and the result does not depend on any HTTP attempt outcome
(none is made). -/
theorem delivery_event_missing (st : Db) (d : DeliveryRow) (outcome : AttemptOutcome)
    (now retryLimit : Nat)
    (hev : findEvent st.events d.tenantId d.eventId = none) :
    processDelivery st d outcome now retryLimit =
      { st with deliveries := replaceDelivery st.deliveries d.id (markEventMissing now) } ∧
    (processDelivery st d outcome now retryLimit).events = st.events ∧
    (∀ r : DeliveryRow,
      (markEventMissing now r).attemptCount = r.attemptCount ∧
      (markEventMissing now r).status = "failed" ∧
      (markEventMissing now r).lastError = some "Event not found" ∧
      (markEventMissing now r).nextAttemptAt = none) ∧
    (∀ o2 : AttemptOutcome,
      processDelivery st d outcome now retryLimit = processDelivery st d o2 now retryLimit) := by
  have hmain : processDelivery st d outcome now retryLimit =
      { st with deliveries := replaceDelivery st.deliveries d.id (markEventMissing now) } := by
    unfold processDelivery
    rw [hev]
  refine ⟨hmain, by rw [hmain], ?_, ?_⟩
  · intro r; simp [markEventMissing]
  · intro o2
    rw [hmain]
    unfold processDelivery
    rw [hev]

/-- C8: the replay trigger fails with EVENT_NOT_FOUND when no event with the
given id exists for the tenant, fails with WEBHOOK_NOT_CONFIGURED when the
tenant has no (or a blank) destination URL, and otherwise inserts a brand-new
delivery row with attempt_count 0, status pending and next_attempt_at = now,
returning its id — while every other table, and every prior delivery row, is
left untouched. -/
theorem replay_enqueue_spec (st : Db) (tenantId eventId : String) (now : Nat) :
    (findEvent st.events tenantId eventId = none →
      replayEnqueue st tenantId eventId now = (ReplayResult.failure "EVENT_NOT_FOUND" 404, st)) ∧
    (∀ ev : EventRow, findEvent st.events tenantId eventId = some ev →
      (tenantWebhookUrl st tenantId = none ∨ tenantWebhookUrl st tenantId = some "") →
      replayEnqueue st tenantId eventId now = (ReplayResult.failure "WEBHOOK_NOT_CONFIGURED" 400, st)) ∧
    (∀ (ev : EventRow) (url : String), findEvent st.events tenantId eventId = some ev →
      tenantWebhookUrl st tenantId = some url → url ≠ "" →
      (replayEnqueue st tenantId eventId now).1 = ReplayResult.ok (freshId st.nextId) 201 ∧
      (replayEnqueue st tenantId eventId now).2.deliveries =
        st.deliveries ++ [DeliveryRow.mk (freshId st.nextId) tenantId ev.id url "pending" 0 none (some now) none] ∧
      (replayEnqueue st tenantId eventId now).2.tenants = st.tenants ∧
      (replayEnqueue st tenantId eventId now).2.users = st.users ∧
      (replayEnqueue st tenantId eventId now).2.referrals = st.referrals ∧
      (replayEnqueue st tenantId eventId now).2.ledger = st.ledger ∧
      (replayEnqueue st tenantId eventId now).2.events = st.events ∧
      (replayEnqueue st tenantId eventId now).2.rateLimits = st.rateLimits) := by
  refine ⟨?_, ?_, ?_⟩
  · intro h
    unfold replayEnqueue
    rw [h]
  · intro ev h hurl
    unfold replayEnqueue
    rw [h]
    rcases hurl with h2 | h2 <;> simp [h2]
  · intro ev url h hu hne
    unfold replayEnqueue
    rw [h, hu]
    simp [hne]

lemma enqueue_preserves_core_tables (s : Db) (tenantId eventId : String) (now : Nat) :
    (enqueueWebhookForExistingEvent s tenantId eventId now).referrals = s.referrals ∧
    (enqueueWebhookForExistingEvent s tenantId eventId now).ledger = s.ledger ∧
    (enqueueWebhookForExistingEvent s tenantId eventId now).events = s.events := by
  unfold enqueueWebhookForExistingEvent
  split
  · exact ⟨rfl, rfl, rfl⟩
  · split <;> exact ⟨rfl, rfl, rfl⟩

/-- C7: the claim response is independent of the post-commit webhook-enqueue
outcome: for every state and input, running the claim with a failing enqueue
returns exactly the same response as with a succeeding one, and the committed
referral, ledger and event tables agree as well — enqueue failure is never
surfaced to the caller. -/
theorem enqueue_failure_isolated (st : Db) (tenantId clientIp : String) (input : ClaimInput)
    (now : Nat) (rlFail : Bool) :
    (handleClaimReferral st tenantId clientIp input now rlFail true).1 =
      (handleClaimReferral st tenantId clientIp input now rlFail false).1 ∧
    (handleClaimReferral st tenantId clientIp input now rlFail true).2.referrals =
      (handleClaimReferral st tenantId clientIp input now rlFail false).2.referrals ∧
    (handleClaimReferral st tenantId clientIp input now rlFail true).2.ledger =
      (handleClaimReferral st tenantId clientIp input now rlFail false).2.ledger ∧
    (handleClaimReferral st tenantId clientIp input now rlFail true).2.events =
      (handleClaimReferral st tenantId clientIp input now rlFail false).2.events := by
  refine ⟨rfl, ?_⟩
  unfold handleClaimReferral
  cases h : (claimCore st tenantId clientIp input now rlFail).2.2 with
  | none => simp [h]
  | some ev =>
    simp only [h]
    have hp := enqueue_preserves_core_tables
      (claimCore st tenantId clientIp input now rlFail).2.1 tenantId ev now
    simp [hp.1, hp.2.1, hp.2.2]

lemma rlCount_cons (r : RateLimitRow) (rest : List RateLimitRow) (tenantId key : String) (ws : Nat) :
    rlCount (r :: rest) tenantId key ws =
      if (r.tenantId == tenantId && r.key == key && r.windowStart == ws) = true then r.count
      else rlCount rest tenantId key ws := by
  by_cases h : (r.tenantId == tenantId && r.key == key && r.windowStart == ws) = true
  · simp [rlCount, List.find?, h]
  · simp [rlCount, List.find?, h]

lemma rlUpsert_count_eq (rows : List RateLimitRow) (tenantId key : String) (ws amount : Nat) :
    rlCount (rlUpsert rows tenantId key ws amount).2 tenantId key ws =
      rlCount rows tenantId key ws + amount := by
  induction rows with
  | nil =>
    simp [rlUpsert, rlCount, List.find?]
  | cons r rest ih =>
    by_cases h : (r.tenantId == tenantId && r.key == key && r.windowStart == ws) = true
    · simp [rlUpsert, h, rlCount_cons]
    · simp [rlUpsert, h, rlCount_cons, ih]

lemma checkRateLimit_snd (rows : List RateLimitRow) (tenantId key : String) (limit now : Nat) :
    (checkRateLimit rows false tenantId key limit now).2 =
      (rlUpsert rows tenantId key (now - now % WINDOW_MS) 1).2 := rfl

lemma checkRateLimit_allowed (rows : List RateLimitRow) (tenantId key : String) (limit now : Nat) :
    (checkRateLimit rows false tenantId key limit now).1.allowed =
      decide ((rlUpsert rows tenantId key (now - now % WINDOW_MS) 1).1 ≤ limit) := rfl

lemma data_append_eq (s t : String) : (s ++ t).data = s.data ++ t.data := rfl

lemma claimIp_ne_invalidRef (a b : String) : "claim:ip:" ++ a ≠ "invalid_ref:ip:" ++ b := by
  intro h
  have h2 : ("claim:ip:" ++ a).data = ("invalid_ref:ip:" ++ b).data := congrArg String.data h
  rw [data_append_eq, data_append_eq] at h2
  simp at h2

lemma claimUser_ne_invalidRef (a b : String) : "claim:user:" ++ a ≠ "invalid_ref:ip:" ++ b := by
  intro h
  have h2 : ("claim:user:" ++ a).data = ("invalid_ref:ip:" ++ b).data := congrArg String.data h
  rw [data_append_eq, data_append_eq] at h2
  simp at h2

lemma rlUpsert_fst (rows : List RateLimitRow) (tenantId key : String) (ws amount : Nat) :
    (rlUpsert rows tenantId key ws amount).1 = rlCount rows tenantId key ws + amount := by
  induction rows with
  | nil =>
    simp [rlUpsert, rlCount, List.find?]
  | cons r rest ih =>
    by_cases h : (r.tenantId == tenantId && r.key == key && r.windowStart == ws) = true
    · simp [rlUpsert, h, rlCount_cons]
    · simp [rlUpsert, h, rlCount_cons, ih]

lemma rlUpsert_count_preserved (rows : List RateLimitRow) (tenantId key : String) (ws amount : Nat)
    (t2 k2 : String) (w2 : Nat) (hne : key ≠ k2) :
    rlCount (rlUpsert rows tenantId key ws amount).2 t2 k2 w2 = rlCount rows t2 k2 w2 := by
  induction rows with
  | nil =>
    have hkk : (key == k2) = false := beq_eq_false_iff_ne.mpr hne
    simp [rlUpsert, rlCount, List.find?, hkk]
  | cons r rest ih =>
    by_cases h : (r.tenantId == tenantId && r.key == key && r.windowStart == ws) = true
    · have hk : r.key = key := by
        simp only [Bool.and_eq_true, beq_iff_eq] at h
        exact h.1.2
      have hq : (r.tenantId == t2 && r.key == k2 && r.windowStart == w2) = false := by
        have hkk : (r.key == k2) = false := beq_eq_false_iff_ne.mpr (hk ▸ hne)
        simp [hkk]
      simp [rlUpsert, h, rlCount_cons, hq]
    · by_cases hq : (r.tenantId == t2 && r.key == k2 && r.windowStart == w2) = true
      · simp [rlUpsert, h, rlCount_cons, hq]
      · simp [rlUpsert, h, rlCount_cons, hq, ih]

lemma alreadyOutcome_proj (us : List UserRow) (r : ReferralRow) :
    (alreadyOutcome us r).isSuccess = true ∧
    (alreadyOutcome us r).refId = some r.id ∧
    (alreadyOutcome us r).alreadyFlag = some true ∧
    (alreadyOutcome us r).rewardPair = some (none, none) := by
  unfold alreadyOutcome
  exact ⟨rfl, rfl, rfl, rfl⟩

/-- C1 (amended): in every state holding a Referral row for the tenant and
referred external user id, a claim for that same referred user id that passes
the per-IP and per-user rate-limit checks and input validation returns the
idempotent success response: alreadyProcessed true, the stored referral id,
both reward fields null — and writes no new referral, ledger, event or
delivery rows.  (As stated, without the rate-limit proviso, the claim is
false: see the counterexample.) -/
theorem claim_replay_idempotent (st : Db) (tenantId clientIp : String) (input : ClaimInput)
    (now : Nat) (rlFail ef : Bool) (r : ReferralRow)
    (hip : (checkRateLimit st.rateLimits rlFail tenantId ("claim:ip:" ++ clientIp)
      CLAIM_PER_IP now).1.allowed = true)
    (hcode : input.referralCode ≠ "") (huid : input.referredUserId ≠ "")
    (hlen1 : input.referredUserId.length ≤ MAX_EXTERNAL_USER_ID_LENGTH)
    (hlen2 : input.referralCode.length ≤ MAX_REFERRAL_CODE_LENGTH)
    (huser : (checkRateLimit
      (checkRateLimit st.rateLimits rlFail tenantId ("claim:ip:" ++ clientIp) CLAIM_PER_IP now).2
      rlFail tenantId ("claim:user:" ++ input.referredUserId) CLAIM_PER_USER now).1.allowed = true)
    (hfind : findReferralByReferred st.referrals tenantId input.referredUserId = some r) :
    (handleClaimReferral st tenantId clientIp input now rlFail ef).1 = alreadyOutcome st.users r ∧
    (handleClaimReferral st tenantId clientIp input now rlFail ef).1.isSuccess = true ∧
    (handleClaimReferral st tenantId clientIp input now rlFail ef).1.refId = some r.id ∧
    (handleClaimReferral st tenantId clientIp input now rlFail ef).1.alreadyFlag = some true ∧
    (handleClaimReferral st tenantId clientIp input now rlFail ef).1.rewardPair = some (none, none) ∧
    (handleClaimReferral st tenantId clientIp input now rlFail ef).2.referrals = st.referrals ∧
    (handleClaimReferral st tenantId clientIp input now rlFail ef).2.ledger = st.ledger ∧
    (handleClaimReferral st tenantId clientIp input now rlFail ef).2.events = st.events ∧
    (handleClaimReferral st tenantId clientIp input now rlFail ef).2.deliveries = st.deliveries := by
  have hcore : claimCore st tenantId clientIp input now rlFail =
      (alreadyOutcome st.users r,
        { st with rateLimits := (checkRateLimit
            (checkRateLimit st.rateLimits rlFail tenantId ("claim:ip:" ++ clientIp) CLAIM_PER_IP now).2
            rlFail tenantId ("claim:user:" ++ input.referredUserId) CLAIM_PER_USER now).2 },
        none) := by
    unfold claimCore
    simp [hip, hcode, huid, Nat.not_lt.mpr hlen1, Nat.not_lt.mpr hlen2, huser, hfind]
  have hh : handleClaimReferral st tenantId clientIp input now rlFail ef =
      (alreadyOutcome st.users r,
        { st with rateLimits := (checkRateLimit
            (checkRateLimit st.rateLimits rlFail tenantId ("claim:ip:" ++ clientIp) CLAIM_PER_IP now).2
            rlFail tenantId ("claim:user:" ++ input.referredUserId) CLAIM_PER_USER now).2 }) := by
    unfold handleClaimReferral
    rw [hcore]
  have hproj := alreadyOutcome_proj st.users r
  rw [hh]
  exact ⟨rfl, hproj.1, hproj.2.1, hproj.2.2.1, hproj.2.2.2, rfl, rfl, rfl, rfl⟩

/-- C5 (amended): the length-bound checks sit after the per-IP rate-limit
check but before the per-referred-user check, so every request that violates
a length bound and passes the per-IP check fails with INVALID_REQUEST
regardless of any other state, in particular of the per-referred-user
counter.  (As stated — length checks before all rate-limit checks — the claim
is false: see the counterexample.) -/
theorem length_check_after_ip_limit (st : Db) (tenantId clientIp : String) (input : ClaimInput)
    (now : Nat) (rlFail ef : Bool)
    (hip : (checkRateLimit st.rateLimits rlFail tenantId ("claim:ip:" ++ clientIp)
      CLAIM_PER_IP now).1.allowed = true)
    (hlen : input.referredUserId.length > MAX_EXTERNAL_USER_ID_LENGTH ∨
      input.referralCode.length > MAX_REFERRAL_CODE_LENGTH) :
    (handleClaimReferral st tenantId clientIp input now rlFail ef).1 =
      ClaimOutcome.failure "INVALID_REQUEST" 400 := by
  rw [handleClaimReferral_fst]
  by_cases hz : input.referralCode = "" ∨ input.referredUserId = ""
  · unfold claimCore
    simp [hip, hz]
  · by_cases hu : input.referredUserId.length > MAX_EXTERNAL_USER_ID_LENGTH
    · unfold claimCore
      simp [hip, hz, hu]
    · have hc : input.referralCode.length > MAX_REFERRAL_CODE_LENGTH := by
        rcases hlen with h | h
        · exact absurd h hu
        · exact h
      unfold claimCore
      simp [hip, hz, hu, hc]

/-- C6 (amended): a claim whose referral code resolves to no user of the
tenant fails with REFERRAL_CODE_NOT_FOUND (404) exactly when the per-IP
invalid-code budget still covers the attempt — the prior count for the
current window plus the two increments stays within INVALID_REF_PER_IP — and
fails with RATE_LIMITED (429) as soon as that budget is exceeded; in both
cases no user, referral, ledger, event or delivery row is created, and the
per-IP invalid-code counter for the current window grows by exactly two (the
explicit increment plus the increment performed by the limit check, run
sequentially in this embedding).  (As stated — always REFERRAL_CODE_NOT_FOUND
— the claim is false: see the counterexample.) -/
theorem code_not_found_counts_and_fails (st : Db) (tenantId clientIp : String) (input : ClaimInput)
    (now : Nat) (ef : Bool)
    (hip : (checkRateLimit st.rateLimits false tenantId ("claim:ip:" ++ clientIp)
      CLAIM_PER_IP now).1.allowed = true)
    (hcode : input.referralCode ≠ "") (huid : input.referredUserId ≠ "")
    (hlen1 : input.referredUserId.length ≤ MAX_EXTERNAL_USER_ID_LENGTH)
    (hlen2 : input.referralCode.length ≤ MAX_REFERRAL_CODE_LENGTH)
    (huser : (checkRateLimit
      (checkRateLimit st.rateLimits false tenantId ("claim:ip:" ++ clientIp) CLAIM_PER_IP now).2
      false tenantId ("claim:user:" ++ input.referredUserId) CLAIM_PER_USER now).1.allowed = true)
    (hnoref : findReferralByReferred st.referrals tenantId input.referredUserId = none)
    (hnouser : findUserByReferralCode st.users tenantId input.referralCode = none) :
    ((handleClaimReferral st tenantId clientIp input now false ef).1 =
        ClaimOutcome.failure "REFERRAL_CODE_NOT_FOUND" 404 ∨
      (handleClaimReferral st tenantId clientIp input now false ef).1 =
        ClaimOutcome.failure "RATE_LIMITED" 429) ∧
    (handleClaimReferral st tenantId clientIp input now false ef).2.users = st.users ∧
    (handleClaimReferral st tenantId clientIp input now false ef).2.referrals = st.referrals ∧
    (handleClaimReferral st tenantId clientIp input now false ef).2.ledger = st.ledger ∧
    (handleClaimReferral st tenantId clientIp input now false ef).2.events = st.events ∧
    (handleClaimReferral st tenantId clientIp input now false ef).2.deliveries = st.deliveries ∧
    rlCount (handleClaimReferral st tenantId clientIp input now false ef).2.rateLimits tenantId
        ("invalid_ref:ip:" ++ clientIp) (now - now % WINDOW_MS) =
      rlCount st.rateLimits tenantId ("invalid_ref:ip:" ++ clientIp) (now - now % WINDOW_MS) + 2 ∧
    (rlCount st.rateLimits tenantId ("invalid_ref:ip:" ++ clientIp) (now - now % WINDOW_MS) + 2 ≤
        INVALID_REF_PER_IP →
      (handleClaimReferral st tenantId clientIp input now false ef).1 =
        ClaimOutcome.failure "REFERRAL_CODE_NOT_FOUND" 404) ∧
    (INVALID_REF_PER_IP <
        rlCount st.rateLimits tenantId ("invalid_ref:ip:" ++ clientIp) (now - now % WINDOW_MS) + 2 →
      (handleClaimReferral st tenantId clientIp input now false ef).1 =
        ClaimOutcome.failure "RATE_LIMITED" 429) := by
  have hcore : claimCore st tenantId clientIp input now false =
      (if (checkRateLimit (incrementRateLimitKey
            (checkRateLimit
              (checkRateLimit st.rateLimits false tenantId ("claim:ip:" ++ clientIp) CLAIM_PER_IP now).2
              false tenantId ("claim:user:" ++ input.referredUserId) CLAIM_PER_USER now).2
            false tenantId ("invalid_ref:ip:" ++ clientIp) now 1)
          false tenantId ("invalid_ref:ip:" ++ clientIp) INVALID_REF_PER_IP now).1.allowed = false
        then ClaimOutcome.failure "RATE_LIMITED" 429
        else ClaimOutcome.failure "REFERRAL_CODE_NOT_FOUND" 404,
        { st with rateLimits := (checkRateLimit (incrementRateLimitKey
            (checkRateLimit
              (checkRateLimit st.rateLimits false tenantId ("claim:ip:" ++ clientIp) CLAIM_PER_IP now).2
              false tenantId ("claim:user:" ++ input.referredUserId) CLAIM_PER_USER now).2
            false tenantId ("invalid_ref:ip:" ++ clientIp) now 1)
          false tenantId ("invalid_ref:ip:" ++ clientIp) INVALID_REF_PER_IP now).2 },
        none) := by
    unfold claimCore
    simp only [hip, hcode, huid, Nat.not_lt.mpr hlen1, Nat.not_lt.mpr hlen2, huser, hnoref, hnouser]
    by_cases hic : (checkRateLimit (incrementRateLimitKey
        (checkRateLimit
          (checkRateLimit st.rateLimits false tenantId ("claim:ip:" ++ clientIp) CLAIM_PER_IP now).2
          false tenantId ("claim:user:" ++ input.referredUserId) CLAIM_PER_USER now).2
        false tenantId ("invalid_ref:ip:" ++ clientIp) now 1)
        false tenantId ("invalid_ref:ip:" ++ clientIp) INVALID_REF_PER_IP now).1.allowed = false <;>
      simp [hic]
  have hh : handleClaimReferral st tenantId clientIp input now false ef =
      ((claimCore st tenantId clientIp input now false).1,
        (claimCore st tenantId clientIp input now false).2.1) := by
    unfold handleClaimReferral
    rw [hcore]
  have hic : (checkRateLimit (incrementRateLimitKey
      (checkRateLimit
        (checkRateLimit st.rateLimits false tenantId ("claim:ip:" ++ clientIp) CLAIM_PER_IP now).2
        false tenantId ("claim:user:" ++ input.referredUserId) CLAIM_PER_USER now).2
      false tenantId ("invalid_ref:ip:" ++ clientIp) now 1)
      false tenantId ("invalid_ref:ip:" ++ clientIp) INVALID_REF_PER_IP now).1.allowed =
      decide (rlCount st.rateLimits tenantId ("invalid_ref:ip:" ++ clientIp)
        (now - now % WINDOW_MS) + 2 ≤ INVALID_REF_PER_IP) := by
    rw [checkRateLimit_allowed, rlUpsert_fst]
    simp only [incrementRateLimitKey, Bool.false_eq_true, if_false]
    simp only [rlUpsert_count_eq, checkRateLimit_snd]
    simp only [rlUpsert_count_preserved, claimUser_ne_invalidRef, claimIp_ne_invalidRef,
      ne_eq, not_false_eq_true]
  refine ⟨?_, ?_, ?_, ?_, ?_, ?_, ?_, ?_, ?_⟩
  · simp only [hh, hcore]
    by_cases hd : (checkRateLimit (incrementRateLimitKey
        (checkRateLimit
          (checkRateLimit st.rateLimits false tenantId ("claim:ip:" ++ clientIp) CLAIM_PER_IP now).2
          false tenantId ("claim:user:" ++ input.referredUserId) CLAIM_PER_USER now).2
        false tenantId ("invalid_ref:ip:" ++ clientIp) now 1)
        false tenantId ("invalid_ref:ip:" ++ clientIp) INVALID_REF_PER_IP now).1.allowed = false <;>
      simp [hd]
  · simp [hh, hcore]
  · simp [hh, hcore]
  · simp [hh, hcore]
  · simp [hh, hcore]
  · simp [hh, hcore]
  · simp only [hh, hcore]
    simp only [incrementRateLimitKey, checkRateLimit_snd, Bool.false_eq_true, if_false]
    simp only [rlUpsert_count_eq]
    rw [rlUpsert_count_preserved _ _ _ _ _ _ _ _ (claimUser_ne_invalidRef _ _),
      rlUpsert_count_preserved _ _ _ _ _ _ _ _ (claimIp_ne_invalidRef _ _)]
  · intro hle
    have hda : decide (rlCount st.rateLimits tenantId ("invalid_ref:ip:" ++ clientIp)
        (now - now % WINDOW_MS) + 2 ≤ INVALID_REF_PER_IP) = true := decide_eq_true hle
    simp [hh, hcore, hic, hda]
  · intro hgt
    have hda : decide (rlCount st.rateLimits tenantId ("invalid_ref:ip:" ++ clientIp)
        (now - now % WINDOW_MS) + 2 ≤ INVALID_REF_PER_IP) = false :=
      decide_eq_false (by omega)
    simp [hh, hcore, hic, hda]

/-- C1 counterexample: a state in which the referral for u2 already exists
but the caller exhausted the per-IP claim budget; the replay is rejected with
RATE_LIMITED rather than returning the alreadyProcessed success the claim
promises unconditionally. -/
theorem claim_replay_rate_limited_cex :
    findReferralByReferred replayLimitedDb.referrals "t1" "u2" = some exReferral ∧
    (handleClaimReferral replayLimitedDb "t1" "9.9.9.9" replayInput 0 false false).1 =
      ClaimOutcome.failure "RATE_LIMITED" 429 ∧
    (handleClaimReferral replayLimitedDb "t1" "9.9.9.9" replayInput 0 false false).1.isSuccess =
      false := by
  decide

/-- C1 witness: concrete replay in a state with fresh rate-limit counters. -/
theorem claim_replay_idempotent_witness :
    (handleClaimReferral replayDb "t1" "9.9.9.9" replayInput 0 false false).1.refId = some "r-1" ∧
    (handleClaimReferral replayDb "t1" "9.9.9.9" replayInput 0 false false).1.alreadyFlag =
      some true ∧
    (handleClaimReferral replayDb "t1" "9.9.9.9" replayInput 0 false false).1.rewardPair =
      some (none, none) ∧
    (handleClaimReferral replayDb "t1" "9.9.9.9" replayInput 0 false false).2.referrals =
      replayDb.referrals := by
  have h := claim_replay_idempotent replayDb "t1" "9.9.9.9" replayInput 0 false false exReferral
    (by decide) (by decide) (by decide) (by decide) (by decide) (by decide) (by decide)
  exact ⟨h.2.2.1, h.2.2.2.1, h.2.2.2.2.1, h.2.2.2.2.2.1⟩

/-- C2 witness: re-inserting a concrete ledger row changes nothing. -/
theorem ledger_insert_idempotent_witness :
    ledgerInsert [exLedgerRow] exLedgerRow = [exLedgerRow] ∧
    sumRewardsByUser "t1" "uid-1" (ledgerInsert (ledgerInsert [exLedgerRow] exLedgerRow) exLedgerRow) =
      sumRewardsByUser "t1" "uid-1" (ledgerInsert [exLedgerRow] exLedgerRow) := by
  have h := ledger_insert_idempotent [exLedgerRow] exLedgerRow "t1" "uid-1"
  exact ⟨h.1 (by decide), h.2.2⟩

/-- C3 witness: a concrete HTTP 500 on a first attempt reschedules the row
10 seconds out as pending. -/
theorem webhook_failure_retry_transition_witness :
    (processDelivery dispatchDb exDelivery (AttemptOutcome.httpResponse 500 "boom") 5 6).deliveries =
      replaceDelivery dispatchDb.deliveries exDelivery.id
        (markFailure (AttemptOutcome.httpResponse 500 "boom") 5 6 1) ∧
    (markFailure (AttemptOutcome.httpResponse 500 "boom") 5 6 1 exDelivery).status = "pending" ∧
    (markFailure (AttemptOutcome.httpResponse 500 "boom") 5 6 1 exDelivery).nextAttemptAt =
      some (5 + getNextAttemptDelay 1) ∧
    getNextAttemptDelay 1 = 10000 ∧
    WEBHOOK_RETRY_LIMIT = 6 := by
  have h := webhook_failure_retry_transition dispatchDb exDelivery
    (AttemptOutcome.httpResponse 500 "boom") 5 6 exEvent (by decide) (by decide)
  exact ⟨h.1, (h.2.2.2.1 (by decide) exDelivery).1, (h.2.2.2.1 (by decide) exDelivery).2,
    h.2.2.2.2.2.1 1, h.2.2.2.2.2.2.1⟩

/-- C5 counterexample: with the per-IP budget exhausted, a request whose
referral code is 51 characters long is rejected with RATE_LIMITED, not the
INVALID_REQUEST the claim predicts for every over-long input. -/
theorem length_check_order_cex :
    longCode.length > MAX_REFERRAL_CODE_LENGTH ∧
    (handleClaimReferral limitedIpDb "t1" "9.9.9.9" (ClaimInput.mk longCode "u1") 0 false false).1 =
      ClaimOutcome.failure "RATE_LIMITED" 429 ∧
    ¬ (handleClaimReferral limitedIpDb "t1" "9.9.9.9" (ClaimInput.mk longCode "u1") 0 false false).1 =
      ClaimOutcome.failure "INVALID_REQUEST" 400 := by
  decide

/-- C5 witness: the same over-long request against fresh counters fails with
INVALID_REQUEST. -/
theorem length_check_after_ip_limit_witness :
    (handleClaimReferral emptyDb "t1" "9.9.9.9" (ClaimInput.mk longCode "u1") 0 false false).1 =
      ClaimOutcome.failure "INVALID_REQUEST" 400 :=
  length_check_after_ip_limit emptyDb "t1" "9.9.9.9" (ClaimInput.mk longCode "u1") 0 false false
    (by decide) (by decide)

/-- C6 counterexample: with four prior invalid-code attempts in the current
window, an unknown referral code is rejected with RATE_LIMITED instead of the
REFERRAL_CODE_NOT_FOUND the claim requires always. -/
theorem code_not_found_rate_limited_cex :
    findUserByReferralCode invalidRefDb.users "t1" "NOPE" = none ∧
    (handleClaimReferral invalidRefDb "t1" "9.9.9.9" unknownCodeInput 0 false false).1 =
      ClaimOutcome.failure "RATE_LIMITED" 429 ∧
    ¬ (handleClaimReferral invalidRefDb "t1" "9.9.9.9" unknownCodeInput 0 false false).1 =
      ClaimOutcome.failure "REFERRAL_CODE_NOT_FOUND" 404 := by
  decide

/-- C6 witness: an unknown code against fresh counters is answered with
REFERRAL_CODE_NOT_FOUND and leaves the invalid-code counter at exactly two. -/
theorem code_not_found_counts_and_fails_witness :
    (handleClaimReferral invalidRefFreshDb "t1" "9.9.9.9" unknownCodeInput 0 false false).1 =
      ClaimOutcome.failure "REFERRAL_CODE_NOT_FOUND" 404 ∧
    rlCount (handleClaimReferral invalidRefFreshDb "t1" "9.9.9.9" unknownCodeInput 0 false
        false).2.rateLimits "t1" ("invalid_ref:ip:" ++ "9.9.9.9") 0 =
      rlCount invalidRefFreshDb.rateLimits "t1" ("invalid_ref:ip:" ++ "9.9.9.9") 0 + 2 := by
  have h := code_not_found_counts_and_fails invalidRefFreshDb "t1" "9.9.9.9" unknownCodeInput 0 false
    (by decide) (by decide) (by decide) (by decide) (by decide) (by decide) (by decide) (by decide)
  exact ⟨h.2.2.2.2.2.2.2.1 (by decide), h.2.2.2.2.2.2.1⟩

/-- C8 witness: concrete replay of an existing event on a tenant with a
configured URL appends exactly one fresh pending delivery row. -/
theorem replay_enqueue_spec_witness :
    (replayEnqueue dispatchDb "t1" "e-1" 7).1 = ReplayResult.ok "uuid-0" 201 ∧
    (replayEnqueue dispatchDb "t1" "e-1" 7).2.deliveries =
      dispatchDb.deliveries ++
        [DeliveryRow.mk "uuid-0" "t1" "e-1" "https://example.com/hook" "pending" 0 none (some 7) none] := by
  have h := (replay_enqueue_spec dispatchDb "t1" "e-1" 7).2.2 exEvent "https://example.com/hook"
    (by decide) (by decide) (by decide)
  exact ⟨h.1, h.2.1⟩

/-- C9 witness: a concrete fail-open check. -/
theorem rate_limit_fails_open_witness :
    (checkRateLimit [] true "t1" "claim:ip:9.9.9.9" 20 0).1.allowed = true ∧
    (checkRateLimit [] true "t1" "claim:ip:9.9.9.9" 20 0).1.retryAfterSeconds = 0 := by
  have h := rate_limit_fails_open
  exact ⟨(h.1 [] "t1" "claim:ip:9.9.9.9" 20 0).1, (h.1 [] "t1" "claim:ip:9.9.9.9" 20 0).2.1⟩

/-- C10 witness: processing the orphan delivery appends no event and marks
the row failed without counting an attempt. -/
theorem delivery_event_missing_witness :
    (processDelivery orphanDb orphanDelivery (AttemptOutcome.httpResponse 500 "x") 9 6).events =
      orphanDb.events ∧
    (markEventMissing 9 orphanDelivery).status = "failed" ∧
    (markEventMissing 9 orphanDelivery).attemptCount = orphanDelivery.attemptCount := by
  have h := delivery_event_missing orphanDb orphanDelivery (AttemptOutcome.httpResponse 500 "x") 9 6
    (by decide)
  exact ⟨h.2.1, (h.2.2.1 orphanDelivery).2.1, (h.2.2.1 orphanDelivery).1⟩
